import Mathlib

/-!
Verification of the agent scoring engine of `src/logic_analytics.py`
(module `logic_analytics` of the Proyecto_Grafico repository).

The Python code works on pandas DataFrames of float64 values; we embed it
shallowly with `ℝ` for the float values, `List` for the columns of the
monthly table, and explicit structures for the rows.  `np.percentile`
(linear interpolation), `np.median`, `np.std(ddof=1)` and the OLS slope are
spelled out with the formulas numpy documents.  Two-decimal rounding
(`round(x, 2)`) is embedded as `round (x * 100) / 100`; numpy's
half-to-even tie rule differs from `round`'s half-up rule only at exact
half-cent ties, which none of the statements below touch.
-/

namespace Grafico

noncomputable section

/-- Ascending sort of a list of reals (what numpy does internally before
taking a percentile or a median). -/
def sortAsc (l : List ℝ) : List ℝ := l.insertionSort (· ≤ ·)

/-- `calcular_percentil_25` (lines 41-43): `np.percentile(historial, 25)`
with the default linear interpolation, and `0` on an empty list. -/
def calcular_percentil_25 (l : List ℝ) : ℝ :=
  if l.length = 0 then 0
  else
    let s := sortAsc l
    let i := (s.length - 1) / 4
    let frac : ℝ := (((s.length - 1) % 4 : ℕ) : ℝ) / 4
    s.getD i 0 + frac * (s.getD (i + 1) 0 - s.getD i 0)

/-- `np.median`: middle element of the sorted list, or the mean of the two
middle elements for an even length. -/
def npMedian (l : List ℝ) : ℝ :=
  if l.length = 0 then 0
  else
    let s := sortAsc l
    if s.length % 2 = 1 then s.getD (s.length / 2) 0
    else (s.getD (s.length / 2 - 1) 0 + s.getD (s.length / 2) 0) / 2

/-- `np.min` of a nonempty list (`0` on `[]`, a case the code never hits). -/
def listMin (l : List ℝ) : ℝ :=
  match l with
  | [] => 0
  | x :: xs => xs.foldl min x

/-- `calcular_coeficiente_variacion` (lines 45-50): sample standard
deviation (`ddof=1`) over the absolute value of the mean, with guards for
fewer than two values and for a zero mean. -/
def calcular_coeficiente_variacion (l : List ℝ) : ℝ :=
  if l.length < 2 then 0
  else
    let media := l.sum / l.length
    if media = 0 then 0
    else
      Real.sqrt ((l.map (fun x => (x - media) ^ 2)).sum / ((l.length : ℝ) - 1)) / |media|

/-- `calcular_factor_volatilidad` (lines 52-57). -/
def calcular_factor_volatilidad (cv : ℝ) : ℝ × String :=
  if cv < 0.2 then (1.00, "Baja volatilidad")
  else if cv < 0.4 then (0.85, "Moderada")
  else if cv < 0.6 then (0.70, "Alta")
  else if cv < 0.8 then (0.55, "Muy alta")
  else (0.40, "Extrema")

/-- `calcular_tendencia_lineal` (lines 59-66): ordinary least-squares slope
of the values against the index sequence `1..n`. -/
def calcular_tendencia_lineal (l : List ℝ) : ℝ :=
  if l.length < 2 then 0
  else
    let n : ℝ := l.length
    let sumTX := (l.enum.map (fun p => ((p.1 + 1 : ℕ) : ℝ) * p.2)).sum
    let sumT := ((List.range l.length).map (fun i => ((i + 1 : ℕ) : ℝ))).sum
    let sumT2 := ((List.range l.length).map (fun i => ((i + 1 : ℕ) : ℝ) ^ 2)).sum
    let numerador := n * sumTX - sumT * l.sum
    let denominador := n * sumT2 - sumT ^ 2
    if denominador = 0 then 0 else numerador / denominador

/-- `calcular_factor_tendencia` (lines 68-72). -/
def calcular_factor_tendencia (t : ℝ) : ℝ × String :=
  if t > 5000 then (1.15, "Crecimiento fuerte")
  else if t > 0 then (1.05, "Crecimiento moderado")
  else if t ≥ -5000 then (0.95, "Estancamiento")
  else (0.80, "Decrecimiento")

/-! ## The eleven metric calculators

Each is embedded as a function of the aggregate quantities it reads.  The
same function serves the lifetime (global) mode and the per-month mode when
the two code paths compute the same expression; where the two paths differ
(`crecimiento`, the two `eficiencia` tiers, `estabilidad`, `tendencia`)
both variants are defined. -/

/-- Tier part of metric 1 `rentabilidad` (line 124 and line 242). -/
def rentTier (pct : ℝ) : ℝ :=
  if pct ≥ 8 then 7.0
  else if pct ≥ 6 then 5.5
  else if pct ≥ 4 then 4.0
  else max 0 (min 7 (pct * 1.75))

/-- Volume bonus of metric 1 `rentabilidad` (line 125 and line 243). -/
def rentBonus (ngr : ℝ) : ℝ :=
  if ngr > 0 then min 3.0 (Real.logb 10 (ngr + 1) * 0.75) else 0

/-- Metric 1 `rentabilidad` (lines 121-126, identical per-month at lines
239-246): `0` without deposits, otherwise tier of the NGR/deposit
percentage plus the volume bonus. -/
def rentabilidadScore (ngr deps : ℝ) : ℝ :=
  if deps > 0 then rentTier (ngr / deps * 100) + rentBonus ngr else 0

/-- Metric 2 `volumen` (lines 128-130, identical per-month at lines
248-250). -/
def volumenScore (txs : ℝ) : ℝ :=
  if txs > 0 then min 10 (max 0 (Real.logb 10 (txs + 1) * 2.3)) else 0

/-- Metric 3 `fidelidad` (lines 132-135, identical per-month at lines
252-256): share of the platform-wide player count, scaled and capped. -/
def fidelidadScore (jugadores total_jugadores_global : ℝ) : ℝ :=
  if total_jugadores_global > 0 then
    min 10 (jugadores / total_jugadores_global * 100 * 2.5)
  else 0

/-- Metric 4 `estabilidad`, global mode (lines 137-148).  The per-month
mode is the constant `5.0` (line 259). -/
def estabilidadScore (comisiones : List ℝ) : ℝ :=
  if 1 < comisiones.length then
    let min_c := listMin comisiones
    let c_log := comisiones.map (fun x => Real.log (x + |min_c| + 1))
    let ef := 1 - calcular_coeficiente_variacion c_log
    if ef ≥ 0.8 then 8 + (ef - 0.8) / 0.2 * 2
    else if ef ≥ 0.6 then 6 + (ef - 0.6) / 0.2 * 2
    else if ef ≥ 0.4 then 4 + (ef - 0.4) / 0.2 * 2
    else if ef ≥ 0 then ef / 0.4 * 4
    else 0
  else 5.0

/-- Tier table of metric 5 `crecimiento` (lines 156-162 and 266-272, the
same in both modes). -/
def tierCrecimiento (pct : ℝ) : ℝ :=
  if pct ≥ 20 then 10
  else if pct ≥ 10 then 8
  else if pct ≥ 5 then 6.5
  else if pct ≥ 0 then 5
  else if pct ≥ -10 then 3.5
  else if pct ≥ -20 then 2
  else 1

/-- Metric 5 `crecimiento`, global mode (lines 150-165): compares the
deposit counts of the last two monthly rows; with fewer than two rows the
score is the neutral `5.0`.  When the previous count is zero and the
current one is not positive, no branch assigns, so the dictionary default
`0` stands. -/
def crecimientoScore (num_depositos : List ℝ) : ℝ :=
  if 2 ≤ num_depositos.length then
    let dep_act := num_depositos.getD (num_depositos.length - 1) 0
    let dep_ant := num_depositos.getD (num_depositos.length - 2) 0
    if dep_ant > 0 then tierCrecimiento ((dep_act - dep_ant) / dep_ant * 100)
    else if dep_act > 0 then 10
    else 0
  else 5.0

/-- Metric 5 `crecimiento`, per-month mode (lines 261-278): `none` stands
for the first row (`i = 0`), `some p` carries the previous row's deposit
count.  Unlike the global mode this path assigns `5` when both counts are
zero. -/
def crecimientoMensualScore (prev : Option ℝ) (num_deps : ℝ) : ℝ :=
  match prev with
  | none => 5.0
  | some p =>
    if p > 0 then tierCrecimiento ((num_deps - p) / p * 100)
    else if num_deps > 0 then 10
    else 5

/-- Metrics 6/7 `eficiencia_casino` / `eficiencia_deportes`, global mode
(lines 167-185): deposit count over GGR as a percentage, mapped through an
ascending `<` ladder. -/
def eficienciaScore (total_num_depositos ggr : ℝ) : ℝ :=
  if ggr > 0 then
    let val := total_num_depositos / ggr * 100
    if val < 5.5 then 10
    else if val < 10 then 7.5
    else if val < 14 then 5
    else if val < 20 then 3
    else if val < 33 then 2
    else max 1.0 (10 - val / 10)
  else 0

/-- Metrics 6/7 per-month mode (lines 280-302): the same ladder written
with `>` instead of `<`, which makes every branch after the first
unreachable. -/
def eficienciaMensualScore (num_deps ggr : ℝ) : ℝ :=
  if ggr > 0 then
    let val := num_deps / ggr * 100
    if val > 5.5 then 10
    else if val > 10 then 7.5
    else if val > 14 then 5
    else if val > 20 then 3
    else if val > 33 then 2
    else max 1.0 (10 - val / 10)
  else 0

/-- Metric 8 `eficiencia_conversion` (lines 187-194, identical per-month
at lines 304-313). -/
def conversionScore (ggr_total deps : ℝ) : ℝ :=
  if deps > 0 then
    let val := ggr_total / deps * 100
    if val ≥ 15 then 10
    else if val ≥ 10 then 7.5
    else if val ≥ 7 then 5
    else if val ≥ 5 then 3
    else max 0 (val * 2)
  else 0

/-- Metric 9 `tendencia`, global mode (lines 196-204).  The per-month mode
is the constant `5.0` (line 316). -/
def tendenciaScore (comisiones : List ℝ) : ℝ :=
  if 3 ≤ comisiones.length then
    let t := calcular_tendencia_lineal comisiones
    if t > 1000 then 8
    else if t > 0 then 6
    else if t > -1000 then 4
    else 2
  else 5

/-- Metric 10 `diversificacion` (lines 206-209; lines 318-327 compute the
same value per month): one minus the Herfindahl index of the estimated
casino/sportsbook bet shares, scaled to ten. -/
def diversificacionScore (ggr_casino ggr_deportes : ℝ) : ℝ :=
  let total_apuestas := (ggr_deportes + ggr_casino) / 0.05
  let apuestas_casino := ggr_casino / 0.05
  let apuestas_deportes := ggr_deportes / 0.05
  if total_apuestas > 0 then
    (1 - ((apuestas_casino / total_apuestas) ^ 2
          + (apuestas_deportes / total_apuestas) ^ 2)) * 10
  else 0

/-- Metric 11 `calidad_jugadores` (lines 211-217; lines 329-337 per
month): average estimated bets per distinct player, tiered. -/
def calidadScore (total_apuestas jugadores : ℝ) : ℝ :=
  if jugadores > 0 then
    let avg := total_apuestas / jugadores
    if avg > 10000 then 8
    else if avg > 5000 then 6
    else if avg > 1000 then 4
    else 2
  else 0

/-! ## Weights, combined score and classification -/

/-- `PESOS_METRICAS` (lines 23-35): the fixed weight table. -/
def PESOS_METRICAS : List (String × ℝ) :=
  [("rentabilidad", 0.12), ("volumen", 0.15), ("fidelidad", 0.15),
   ("estabilidad", 0.12), ("crecimiento", 0.10), ("eficiencia_casino", 0.08),
   ("eficiencia_deportes", 0.08), ("eficiencia_conversion", 0.11),
   ("tendencia", 0.04), ("diversificacion", 0.03), ("calidad_jugadores", 0.02)]

/-- Weight of a metric name, `0` when absent (`PESOS_METRICAS.get(k, 0)`). -/
def peso (k : String) : ℝ := ((PESOS_METRICAS.lookup k).getD 0)

/-- The eleven named metric scores (the `metricas` dictionary). -/
structure Metricas where
  rentabilidad : ℝ
  volumen : ℝ
  fidelidad : ℝ
  estabilidad : ℝ
  crecimiento : ℝ
  eficiencia_casino : ℝ
  eficiencia_deportes : ℝ
  eficiencia_conversion : ℝ
  tendencia : ℝ
  diversificacion : ℝ
  calidad_jugadores : ℝ

/-- The all-zero score set (`metricas = {k: 0 for k in PESOS_METRICAS}`,
line 80). -/
def Metricas.cero : Metricas := ⟨0, 0, 0, 0, 0, 0, 0, 0, 0, 0, 0⟩

/-- `calcular_score_total` (lines 369-370) and the per-month weighted sum
(lines 340-342): metric value times table weight, summed. -/
def calcular_score_total (m : Metricas) : ℝ :=
  m.rentabilidad * peso "rentabilidad" + m.volumen * peso "volumen"
  + m.fidelidad * peso "fidelidad" + m.estabilidad * peso "estabilidad"
  + m.crecimiento * peso "crecimiento"
  + m.eficiencia_casino * peso "eficiencia_casino"
  + m.eficiencia_deportes * peso "eficiencia_deportes"
  + m.eficiencia_conversion * peso "eficiencia_conversion"
  + m.tendencia * peso "tendencia" + m.diversificacion * peso "diversificacion"
  + m.calidad_jugadores * peso "calidad_jugadores"

/-- `categorizar_agente` (lines 372-382): the ten-category threshold
ladder, returning the class label and its description. -/
def categorizar_agente (score : ℝ) : String × String :=
  if score ≥ 8.5 then ("A+++", "Excelencia excepcional")
  else if score ≥ 8.0 then ("A++", "Excelencia alta")
  else if score ≥ 7.5 then ("A+", "Excelencia")
  else if score ≥ 6.5 then ("B+++", "Consolidado superior")
  else if score ≥ 5.5 then ("B++", "Consolidado alto")
  else if score ≥ 4.5 then ("B+", "Consolidado")
  else if score ≥ 3.5 then ("C+++", "En desarrollo avanzado")
  else if score ≥ 2.5 then ("C++", "En desarrollo medio")
  else if score ≥ 1.5 then ("C+", "Principiante")
  else ("C", "Crítico")

/-- The risk flag `1 if 'A' in cat or 'B' in cat else 0` (line 359 of
`logic_analytics.py` and line 69 of `run_pipeline.py`); Python's `in` on a
one-character needle is character containment. -/
def riskSafe (clase : String) : ℕ :=
  if clase.toList.contains 'A' ∨ clase.toList.contains 'B' then 1 else 0

/-! ## Data model and monthly aggregation -/

/-- One input row of the agent's DataFrame.  `creado = none` embeds a
timestamp `pd.to_datetime(..., errors='coerce')` failed to parse (the row
is dropped by `dropna`); `some m` carries the row's calendar month
`creado.dt.to_period('M')` as a month index. -/
structure Registro where
  creado : Option ℤ
  calculo_ngr : ℝ
  calculo_comision : ℝ
  num_depositos : ℝ
  num_retiros : ℝ
  total_depositos : ℝ
  total_retiros : ℝ
  apuestas_deportivas_ggr : ℝ
  casino_ggr : ℝ
  jugador_id : ℕ

/-- One row of `df_mensual` (lines 95-105): per-month sums plus the
distinct-player count of the month. -/
structure FilaMensual where
  mes : ℤ
  calculo_ngr : ℝ
  calculo_comision : ℝ
  num_depositos : ℝ
  num_retiros : ℝ
  total_depositos : ℝ
  total_retiros : ℝ
  apuestas_deportivas_ggr : ℝ
  casino_ggr : ℝ
  active_players : ℝ

/-- Distinct `jugador_id` count (pandas `nunique`). -/
def nuniqueJugadores (rs : List Registro) : ℕ :=
  ((rs.map (fun r => r.jugador_id)).dedup).length

/-- The sorted list of distinct months present in the parsed rows
(pandas `groupby` sorts its keys ascending). -/
def mesesDe (df : List Registro) : List ℤ :=
  ((df.filterMap (fun r => r.creado)).dedup).insertionSort (· ≤ ·)

/-- The aggregate row of one month (the `agg` dictionary of lines
95-105): sums of the numeric columns, `nunique` of the player ids. -/
def agregarMes (df : List Registro) (m : ℤ) : FilaMensual :=
  let rs := df.filter (fun r => r.creado = some m)
  { mes := m
    calculo_ngr := (rs.map (fun r => r.calculo_ngr)).sum
    calculo_comision := (rs.map (fun r => r.calculo_comision)).sum
    num_depositos := (rs.map (fun r => r.num_depositos)).sum
    num_retiros := (rs.map (fun r => r.num_retiros)).sum
    total_depositos := (rs.map (fun r => r.total_depositos)).sum
    total_retiros := (rs.map (fun r => r.total_retiros)).sum
    apuestas_deportivas_ggr := (rs.map (fun r => r.apuestas_deportivas_ggr)).sum
    casino_ggr := (rs.map (fun r => r.casino_ggr)).sum
    active_players := (nuniqueJugadores rs : ℝ) }

/-- `df_mensual`: one aggregate row per month, chronologically ascending. -/
def agruparPorMes (df : List Registro) : List FilaMensual :=
  (mesesDe df).map (agregarMes df)

/-- The global (lifetime-totals) metric set of lines 107-217, computed
from the monthly table, the distinct-player count of the agent and the
platform-wide player count. -/
def metricasGlobales (dfm : List FilaMensual) (jugadores_agente : ℕ)
    (total_jugadores_global : ℝ) : Metricas :=
  let total_ngr := (dfm.map (fun f => f.calculo_ngr)).sum
  let total_depositos := (dfm.map (fun f => f.total_depositos)).sum
  let total_num_depositos := (dfm.map (fun f => f.num_depositos)).sum
  let total_num_retiros := (dfm.map (fun f => f.num_retiros)).sum
  let total_ggr_deportes := (dfm.map (fun f => f.apuestas_deportivas_ggr)).sum
  let total_ggr_casino := (dfm.map (fun f => f.casino_ggr)).sum
  let total_ggr := total_ggr_deportes + total_ggr_casino
  { rentabilidad := rentabilidadScore total_ngr total_depositos
    volumen := volumenScore (total_num_depositos + total_num_retiros)
    fidelidad := fidelidadScore (jugadores_agente : ℝ) total_jugadores_global
    estabilidad := estabilidadScore (dfm.map (fun f => f.calculo_ngr))
    crecimiento := crecimientoScore (dfm.map (fun f => f.num_depositos))
    eficiencia_casino := eficienciaScore total_num_depositos total_ggr_casino
    eficiencia_deportes := eficienciaScore total_num_depositos total_ggr_deportes
    eficiencia_conversion := conversionScore total_ggr total_depositos
    tendencia := tendenciaScore (dfm.map (fun f => f.calculo_ngr))
    diversificacion := diversificacionScore total_ggr_casino total_ggr_deportes
    calidad_jugadores := calidadScore (total_ggr / 0.05) (jugadores_agente : ℝ) }

/-- The per-month metric set of lines 226-337 for one row, with the
previous row's deposit count threaded through for `crecimiento`. -/
def metricasMensuales (prev : Option ℝ) (fila : FilaMensual)
    (total_jugadores_global : ℝ) : Metricas :=
  let ggr_total := fila.casino_ggr + fila.apuestas_deportivas_ggr
  let total_bets := fila.casino_ggr / 0.05 + fila.apuestas_deportivas_ggr / 0.05
  { rentabilidad := rentabilidadScore fila.calculo_ngr fila.total_depositos
    volumen := volumenScore (fila.num_depositos + fila.num_retiros)
    fidelidad := fidelidadScore fila.active_players total_jugadores_global
    estabilidad := 5.0
    crecimiento := crecimientoMensualScore prev fila.num_depositos
    eficiencia_casino := eficienciaMensualScore fila.num_depositos fila.casino_ggr
    eficiencia_deportes :=
      eficienciaMensualScore fila.num_depositos fila.apuestas_deportivas_ggr
    eficiencia_conversion := conversionScore ggr_total fila.total_depositos
    tendencia := 5.0
    diversificacion :=
      diversificacionScore fila.casino_ggr fila.apuestas_deportivas_ggr
    calidad_jugadores := calidadScore total_bets fila.active_players }

/-- One row of the returned monthly history: the aggregate row, its metric
set, its weighted score, its class and its risk flag (lines 339-361). -/
structure SalidaMensual where
  fila : FilaMensual
  metricas : Metricas
  score_global : ℝ
  clase : String
  risk_safe : ℕ

/-- The per-month loop of lines 226-361, carrying the previous row's
deposit count. -/
def filasSalida (total_jugadores_global : ℝ) :
    Option ℝ → List FilaMensual → List SalidaMensual
  | _, [] => []
  | prev, fila :: resto =>
    let m := metricasMensuales prev fila total_jugadores_global
    let s := calcular_score_total m
    { fila := fila, metricas := m, score_global := s,
      clase := (categorizar_agente s).1,
      risk_safe := riskSafe (categorizar_agente s).1 }
      :: filasSalida total_jugadores_global (some fila.num_depositos) resto

/-- `calcular_metricas_agente` (lines 78-363): drop the rows whose
timestamp failed to parse; with nothing left return the all-zero metric
set and an empty monthly table, otherwise aggregate by month and compute
the global metric set and the monthly history.  (The earlier guard for a
missing `creado` column, lines 82-83, returns the same degenerate pair and
has no counterpart in a typed embedding.) -/
def calcular_metricas_agente (df : List Registro)
    (total_jugadores_global : ℝ) : Metricas × List SalidaMensual :=
  let parsados := df.filter (fun r => r.creado.isSome)
  if parsados.length = 0 then (Metricas.cero, [])
  else
    let dfm := agruparPorMes parsados
    (metricasGlobales dfm (nuniqueJugadores parsados) total_jugadores_global,
     filasSalida total_jugadores_global none dfm)

/-! ## Credit recommendation and revenue forecast -/

/-- Two-decimal rounding, `round(x, 2)`. -/
def round2 (x : ℝ) : ℝ := (round (x * 100) : ℤ) / 100

/-- The positive-NGR filter `ngr[ngr > 0]` of line 400. -/
def validosNGR (dfm : List FilaMensual) : List ℝ :=
  (dfm.map (fun f => f.calculo_ngr)).filter (fun x => decide (x > 0))

/-- The turnover factor `f_vol` of lines 415-420. -/
def factorVolumen (validos : List ℝ) : ℝ :=
  let total_com := validos.sum
  if total_com ≥ 50000 then 1.5
  else if total_com ≥ 30000 then 1.3
  else if total_com ≥ 15000 then 1.15
  else if total_com ≥ 5000 then 1.0
  else 0.85

/-- `calcular_credito_sugerido` (lines 394-434), returning the rounded
credit amount (the returned detail dictionary carries the intermediate
factors and is not modelled separately). -/
def calcular_credito_sugerido (dfm : List FilaMensual) (score : ℝ)
    (metricas : Metricas) : ℝ :=
  if dfm.length = 0 then 0
  else
    let validos := validosNGR dfm
    if validos.length = 0 then 0
    else
      let p25 := calcular_percentil_25 validos
      let f_score := 0.5 + 0.05 * ((score + metricas.estabilidad) / 2)
      let norm_log := validos.map (fun x => Real.log (x + |listMin validos| + 1))
      let cv := calcular_coeficiente_variacion norm_log
      let f_volatilidad := (calcular_factor_volatilidad cv).1
      let tend := calcular_tendencia_lineal validos
      let f_tendencia := (calcular_factor_tendencia tend).1
      let f_vol := factorVolumen validos
      let credito := p25 * f_score * f_volatilidad * f_tendencia * f_vol
      let mediana := npMedian validos
      let credito2 := if p25 < 100 then 0 else min credito (3 * mediana * f_vol)
      let credito3 := if validos.length < 3 then credito2 * 0.5 else credito2
      round2 credito3

/-- Python's negative indexing `l[-1-k]`: `some` of the element when it
exists, `none` embedding the `IndexError` an empty structure raises. -/
def idxNeg (l : List ℝ) (k : ℕ) : Option ℝ :=
  if k < l.length then some (l.getD (l.length - 1 - k) 0) else none

/-- `predecir_ggr` (lines 436-444): guard for an empty table, then a
weighted moving average of the last three, two or one monthly GGR totals.
A failed negative-index access propagates as `none`. -/
def predecir_ggr (dfm : List FilaMensual) : Option ℝ :=
  if dfm.length = 0 then some 0
  else
    let ggr := dfm.map (fun f => f.apuestas_deportivas_ggr + f.casino_ggr)
    if 3 ≤ ggr.length then
      match idxNeg ggr 0, idxNeg ggr 1, idxNeg ggr 2 with
      | some a, some b, some c => some (a * 0.5 + b * 0.3 + c * 0.2)
      | _, _, _ => none
    else if ggr.length = 2 then
      match idxNeg ggr 0, idxNeg ggr 1 with
      | some a, some b => some (a * 0.6 + b * 0.4)
      | _, _ => none
    else idxNeg ggr 0

end

/-! ## Theorems -/

/-- Claim C8: the eleven weights of `PESOS_METRICAS` sum to `1.00` within
a tolerance of `1e-9` (in the real-valued embedding the sum is exactly
one). -/
theorem pesos_suman_uno : |((PESOS_METRICAS.map Prod.snd).sum) - 1| ≤ 1e-9 := by
  norm_num [PESOS_METRICAS]

/-- Claim C1: the casino/sportsbook efficiency tier test does NOT use the
same comparison direction in the two modes.  On the same aggregates
(8 deposits, GGR 100, so `val = 8`) the global-mode ladder
(lines 167-185, `val < …`) yields `7.5` while the per-month ladder
(lines 280-302, `val > …`) yields `10`: the flipped comparisons make the
per-month `7.5/5/3/2` branches unreachable. -/
theorem eficiencia_modos_divergen :
    eficienciaScore 8 100 = 7.5 ∧ eficienciaMensualScore 8 100 = 10 ∧
    eficienciaScore 8 100 ≠ eficienciaMensualScore 8 100 := by
  norm_num [eficienciaScore, eficienciaMensualScore]

/-- Claim C4, counterexample: in global mode (lines 150-165), when the
previous and current deposit counts are both zero no branch assigns, so
the growth metric keeps the dictionary default `0`, not the `5` the claim
states (the per-month path, lines 261-278, does return `5` there). -/
theorem crecimiento_ambos_cero :
    crecimientoScore [0, 0] = 0 ∧ crecimientoMensualScore (some 0) 0 = 5 ∧
    crecimientoScore [0, 0] ≠ 5 := by
  norm_num [crecimientoScore, crecimientoMensualScore]

/-- Claim C4 (amended): the growth metric equals `5.0` for the first
month in both modes; for a later month with previous count `p` and
current count `c`, both modes give the tier value of the percentage
change when `p > 0` and `10` when `p = 0 < c`; when both counts are zero
the per-month mode gives `5` but the global mode gives `0`. -/
theorem crecimiento_casos (p c : ℝ) :
    crecimientoMensualScore none c = 5 ∧
    crecimientoScore [c] = 5 ∧
    (0 < p → crecimientoScore [p, c] = tierCrecimiento ((c - p) / p * 100) ∧
      crecimientoMensualScore (some p) c = tierCrecimiento ((c - p) / p * 100)) ∧
    (p = 0 → 0 < c → crecimientoScore [p, c] = 10 ∧
      crecimientoMensualScore (some p) c = 10) ∧
    (p = 0 → c = 0 → crecimientoScore [p, c] = 0 ∧
      crecimientoMensualScore (some p) c = 5) := by
  refine ⟨by norm_num [crecimientoMensualScore],
    by norm_num [crecimientoScore], ?_, ?_, ?_⟩
  · intro hp
    constructor
    · simp only [crecimientoScore, List.length_cons, List.length_nil]
      norm_num [hp]
    · simp only [crecimientoMensualScore]
      rw [if_pos hp]
  · intro hp hc
    subst hp
    constructor
    · simp only [crecimientoScore, List.length_cons, List.length_nil]
      norm_num [hc]
    · simp only [crecimientoMensualScore]
      norm_num [hc]
  · intro hp hc
    subst hp; subst hc
    constructor
    · simp only [crecimientoScore, List.length_cons, List.length_nil]
      norm_num
    · norm_num [crecimientoMensualScore]

/-- Claim C4, witness for the amended theorem at `p = 2`, `c = 3`. -/
theorem crecimiento_casos_testigo :
    crecimientoScore [(2 : ℝ), 3] = tierCrecimiento (((3 : ℝ) - 2) / 2 * 100) :=
  ((crecimiento_casos 2 3).2.2.1 (by norm_num)).1

/-- Claim C9: the loyalty score is monotone non-decreasing in the agent's
distinct player count with the platform-wide count held fixed. -/
theorem fidelidad_monotona (G a b : ℝ) (hab : a ≤ b) :
    fidelidadScore a G ≤ fidelidadScore b G := by
  unfold fidelidadScore
  split_ifs with h
  · exact min_le_min le_rfl (by gcongr)
  · exact le_rfl

/-- Claim C9, witness at player counts `1 ≤ 2` and platform count `10`. -/
theorem fidelidad_monotona_testigo : fidelidadScore 1 10 ≤ fidelidadScore 2 10 :=
  fidelidad_monotona 10 1 2 (by norm_num)

/-- Claim C3, counterexample: applied to an empty monthly series the
forecaster returns the sentinel `some 0` through its explicit
`len(df_mensual) == 0` guard (line 437); it does not dereference a missing
last element (`none` in this embedding). -/
theorem predecir_ggr_vacio :
    predecir_ggr ([] : List FilaMensual) = some 0 ∧
    predecir_ggr ([] : List FilaMensual) ≠ none := by
  constructor <;> simp [predecir_ggr]

/-- Claim C3 (amended): the forecaster is defined on every monthly
series — the empty series is guarded and returns the sentinel `0`, and on
a nonempty series every negative index it takes exists. -/
theorem predecir_ggr_definido (dfm : List FilaMensual) :
    (predecir_ggr dfm).isSome = true := by
  by_cases h0 : dfm.length = 0
  · simp [predecir_ggr, h0]
  · simp only [predecir_ggr, if_neg h0, idxNeg, List.length_map]
    by_cases h3 : 3 ≤ dfm.length
    · have i0 : 0 < dfm.length := by omega
      have i1 : 1 < dfm.length := by omega
      have i2 : 2 < dfm.length := by omega
      simp [h3, i0, i1, i2]
    · by_cases h2 : dfm.length = 2
      · simp [h3, h2]
      · have h1 : dfm.length = 1 := by omega
        simp [h3, h2, h1]

/-- Claim C7: an agent none of whose records has a parseable timestamp
(and in particular an agent with no records at all) yields the all-zero
metric set and an empty monthly table. -/
theorem metricas_sin_registros (df : List Registro) (G : ℝ)
    (h : ∀ r ∈ df, r.creado = none) :
    calcular_metricas_agente df G = (Metricas.cero, []) := by
  have hf : df.filter (fun r => r.creado.isSome) = [] := by
    rw [List.filter_eq_nil_iff]
    intro a ha
    simp [h a ha]
  simp [calcular_metricas_agente, hf]

/-- Claim C7, witness: a one-record agent whose timestamp failed to
parse. -/
theorem metricas_sin_registros_testigo :
    calcular_metricas_agente [⟨none, 1, 2, 3, 4, 5, 6, 7, 8, 9⟩] 10
      = (Metricas.cero, []) :=
  metricas_sin_registros _ 10 (by intro r hr; simp at hr; simp [hr])

set_option maxHeartbeats 2000000 in
/-- Claim C6: the classifier returns exactly one of the ten categories,
each pinned to its threshold interval of the strictly decreasing ladder
`8.5, 8.0, 7.5, 6.5, 5.5, 4.5, 3.5, 2.5, 1.5`, and the risk flag is `1`
(safe) exactly when the category's leading letter is `A` or `B`,
equivalently exactly when the score is at least `4.5`. -/
theorem categorizar_escala_riesgo (s : ℝ) :
    (categorizar_agente s).1 ∈
      ["A+++", "A++", "A+", "B+++", "B++", "B+", "C+++", "C++", "C+", "C"] ∧
    (riskSafe (categorizar_agente s).1 = 1 ↔ 4.5 ≤ s) ∧
    (riskSafe (categorizar_agente s).1 = 1 ↔
      ((categorizar_agente s).1.toList.head? = some 'A' ∨
       (categorizar_agente s).1.toList.head? = some 'B')) ∧
    ((categorizar_agente s).1 = "A+++" ↔ 8.5 ≤ s) ∧
    ((categorizar_agente s).1 = "A++" ↔ 8.0 ≤ s ∧ s < 8.5) ∧
    ((categorizar_agente s).1 = "A+" ↔ 7.5 ≤ s ∧ s < 8.0) ∧
    ((categorizar_agente s).1 = "B+++" ↔ 6.5 ≤ s ∧ s < 7.5) ∧
    ((categorizar_agente s).1 = "B++" ↔ 5.5 ≤ s ∧ s < 6.5) ∧
    ((categorizar_agente s).1 = "B+" ↔ 4.5 ≤ s ∧ s < 5.5) ∧
    ((categorizar_agente s).1 = "C+++" ↔ 3.5 ≤ s ∧ s < 4.5) ∧
    ((categorizar_agente s).1 = "C++" ↔ 2.5 ≤ s ∧ s < 3.5) ∧
    ((categorizar_agente s).1 = "C+" ↔ 1.5 ≤ s ∧ s < 2.5) ∧
    ((categorizar_agente s).1 = "C" ↔ s < 1.5) := by
  unfold categorizar_agente
  split_ifs with h1 h2 h3 h4 h5 h6 h7 h8 h9 <;>
    refine ⟨by decide, ?_, by decide, ?_, ?_, ?_, ?_, ?_, ?_, ?_, ?_, ?_, ?_⟩ <;>
    first
      | exact iff_of_true (by decide) (by linarith)
      | exact iff_of_true (by decide) ⟨by linarith, by linarith⟩
      | exact iff_of_false (by decide) (by push_neg; intro hh; linarith)
      | exact iff_of_false (by decide) (by push_neg; linarith)

lemma coefVar_nonneg (l : List ℝ) : 0 ≤ calcular_coeficiente_variacion l := by
  simp only [calcular_coeficiente_variacion]
  split_ifs
  · exact le_rfl
  · exact le_rfl
  · exact div_nonneg (Real.sqrt_nonneg _) (abs_nonneg _)

lemma rentTier_bounds (pct : ℝ) : 0 ≤ rentTier pct ∧ rentTier pct ≤ 7 := by
  simp only [rentTier]
  split_ifs <;> norm_num

lemma rentBonus_bounds (ngr : ℝ) : 0 ≤ rentBonus ngr ∧ rentBonus ngr ≤ 3 := by
  simp only [rentBonus]
  split_ifs with h
  · exact ⟨le_min (by norm_num)
      (mul_nonneg (Real.logb_nonneg (by norm_num) (by linarith)) (by norm_num)),
      le_trans (min_le_left _ _) (by norm_num)⟩
  · norm_num

lemma rentabilidad_bounds (ngr deps : ℝ) :
    0 ≤ rentabilidadScore ngr deps ∧ rentabilidadScore ngr deps ≤ 10 ∧
    (7 < rentabilidadScore ngr deps → 0 < rentBonus ngr) := by
  obtain ⟨t0, t7⟩ := rentTier_bounds (ngr / deps * 100)
  obtain ⟨b0, b3⟩ := rentBonus_bounds ngr
  simp only [rentabilidadScore]
  split_ifs with h
  · exact ⟨by linarith, by linarith, fun hh => by linarith⟩
  · exact ⟨le_rfl, by norm_num, fun hh => by norm_num at hh⟩

lemma volumen_bounds (txs : ℝ) : 0 ≤ volumenScore txs ∧ volumenScore txs ≤ 10 := by
  simp only [volumenScore]
  split_ifs
  · exact ⟨le_min (by norm_num) (le_max_left _ _), min_le_left _ _⟩
  · norm_num

lemma fidelidad_bounds (j G : ℝ) (hj : 0 ≤ j) :
    0 ≤ fidelidadScore j G ∧ fidelidadScore j G ≤ 10 := by
  simp only [fidelidadScore]
  split_ifs with h
  · exact ⟨le_min (by norm_num)
      (mul_nonneg (mul_nonneg (div_nonneg hj h.le) (by norm_num)) (by norm_num)),
      min_le_left _ _⟩
  · norm_num

lemma estabilidad_bounds (l : List ℝ) :
    0 ≤ estabilidadScore l ∧ estabilidadScore l ≤ 10 := by
  have hcv := coefVar_nonneg (l.map (fun x => Real.log (x + |listMin l| + 1)))
  simp only [estabilidadScore]
  set c := calcular_coeficiente_variacion
    (l.map (fun x => Real.log (x + |listMin l| + 1))) with hc
  split_ifs with hlen h1 h2 h3 h4
  · rw [show 8 + (1 - c - 0.8) / 0.2 * 2 = 10 - 10 * c by ring]
    norm_num at h1
    constructor <;> linarith
  · rw [show 6 + (1 - c - 0.6) / 0.2 * 2 = 10 - 10 * c by ring]
    norm_num at h2
    constructor <;> linarith
  · rw [show 4 + (1 - c - 0.4) / 0.2 * 2 = 10 - 10 * c by ring]
    norm_num at h3
    constructor <;> linarith
  · rw [show (1 - c) / 0.4 * 4 = 10 - 10 * c by ring]
    constructor <;> linarith
  · norm_num
  · norm_num

lemma tierCrecimiento_bounds (pct : ℝ) :
    0 ≤ tierCrecimiento pct ∧ tierCrecimiento pct ≤ 10 := by
  simp only [tierCrecimiento]
  split_ifs <;> norm_num

lemma crecimiento_bounds (l : List ℝ) :
    0 ≤ crecimientoScore l ∧ crecimientoScore l ≤ 10 := by
  simp only [crecimientoScore]
  split_ifs <;> first | exact tierCrecimiento_bounds _ | norm_num

lemma crecimientoMensual_bounds (prev : Option ℝ) (c : ℝ) :
    0 ≤ crecimientoMensualScore prev c ∧ crecimientoMensualScore prev c ≤ 10 := by
  rcases prev with _ | p
  · norm_num [crecimientoMensualScore]
  · simp only [crecimientoMensualScore]
    split_ifs <;> first | exact tierCrecimiento_bounds _ | norm_num

lemma eficiencia_bounds (nd g : ℝ) :
    0 ≤ eficienciaScore nd g ∧ eficienciaScore nd g ≤ 10 := by
  simp only [eficienciaScore]
  split_ifs with hg v1 v2 v3 v4 v5
  · norm_num
  · norm_num
  · norm_num
  · norm_num
  · norm_num
  · push_neg at v5
    refine ⟨le_trans (by norm_num) (le_max_left _ _), max_le (by norm_num) ?_⟩
    linarith
  · norm_num

lemma eficienciaMensual_bounds (nd g : ℝ) (hnd : 0 ≤ nd) :
    0 ≤ eficienciaMensualScore nd g ∧ eficienciaMensualScore nd g ≤ 10 := by
  simp only [eficienciaMensualScore]
  split_ifs with hg v1 v2 v3 v4 v5
  · norm_num
  · norm_num
  · norm_num
  · norm_num
  · norm_num
  · have hval : 0 ≤ nd / g * 100 :=
      mul_nonneg (div_nonneg hnd (le_of_lt hg)) (by norm_num)
    refine ⟨le_trans (by norm_num) (le_max_left _ _), max_le (by norm_num) ?_⟩
    linarith
  · norm_num

lemma conversion_bounds (g deps : ℝ) :
    0 ≤ conversionScore g deps ∧ conversionScore g deps ≤ 10 := by
  simp only [conversionScore]
  split_ifs with hd v1 v2 v3 v4
  · norm_num
  · norm_num
  · norm_num
  · norm_num
  · push_neg at v4
    refine ⟨le_max_left _ _, max_le (by norm_num) ?_⟩
    linarith
  · norm_num

lemma tendencia_bounds (l : List ℝ) :
    0 ≤ tendenciaScore l ∧ tendenciaScore l ≤ 10 := by
  simp only [tendenciaScore]
  split_ifs <;> norm_num

lemma diversificacion_bounds (c d : ℝ) (hc : 0 ≤ c) (hd : 0 ≤ d) :
    0 ≤ diversificacionScore c d ∧ diversificacionScore c d ≤ 10 := by
  simp only [diversificacionScore]
  split_ifs with h
  · have hT : (0 : ℝ) < (d + c) / 0.05 := h
    have hx : 0 ≤ c / 0.05 / ((d + c) / 0.05) :=
      div_nonneg (by positivity) hT.le
    have hy : 0 ≤ d / 0.05 / ((d + c) / 0.05) :=
      div_nonneg (by positivity) hT.le
    have hsum : c / 0.05 / ((d + c) / 0.05) + d / 0.05 / ((d + c) / 0.05) = 1 := by
      rw [div_add_div_same, div_eq_one_iff_eq (ne_of_gt hT)]
      ring
    constructor <;>
      nlinarith [sq_nonneg (c / 0.05 / ((d + c) / 0.05)),
        sq_nonneg (d / 0.05 / ((d + c) / 0.05)), mul_nonneg hx hy]
  · norm_num

lemma calidad_bounds (apuestas players : ℝ) :
    0 ≤ calidadScore apuestas players ∧ calidadScore apuestas players ≤ 10 := by
  simp only [calidadScore]
  split_ifs <;> norm_num

/-- Claim C5, counterexample: with a negative casino GGR sum and a
positive sportsbook GGR sum, the diversification metric is `-40`, far
outside `[0,10]`; and the efficiency metric reaches `10 > 7`, so
profitability is not the only metric that can exceed `7`. -/
theorem metrica_fuera_de_rango :
    diversificacionScore (-1) 2 = -40 ∧ diversificacionScore (-1) 2 < 0 ∧
    eficienciaScore 1 100 = 10 ∧ 7 < eficienciaScore 1 100 := by
  norm_num [diversificacionScore, eficienciaScore]

/-- Claim C5 (amended): provided the agent player count, the deposit
count and the casino and sportsbook GGR aggregates are nonnegative, each
of the eleven metric scores (in both modes) lies in `[0,10]`; the
profitability tier component is at most `7` and its volume bonus lies in
`[0,3]`, so profitability exceeds `7` only through a positive volume
bonus, with maximum `10`.  (Without the sign conditions diversification
can leave the interval, and metrics other than profitability also reach
values above `7`, up to `10`.) -/
theorem metricas_en_rango (ngr deps txs j G nd gc gd apg players : ℝ)
    (coms depsL : List ℝ) (prevM : Option ℝ)
    (hj : 0 ≤ j) (hgc : 0 ≤ gc) (hgd : 0 ≤ gd) (hnd : 0 ≤ nd) :
    (0 ≤ rentabilidadScore ngr deps ∧ rentabilidadScore ngr deps ≤ 10) ∧
    (rentTier (ngr / deps * 100) ≤ 7 ∧ 0 ≤ rentBonus ngr ∧ rentBonus ngr ≤ 3) ∧
    (7 < rentabilidadScore ngr deps → 0 < rentBonus ngr) ∧
    (0 ≤ volumenScore txs ∧ volumenScore txs ≤ 10) ∧
    (0 ≤ fidelidadScore j G ∧ fidelidadScore j G ≤ 10) ∧
    (0 ≤ estabilidadScore coms ∧ estabilidadScore coms ≤ 10) ∧
    (0 ≤ crecimientoScore depsL ∧ crecimientoScore depsL ≤ 10) ∧
    (0 ≤ crecimientoMensualScore prevM nd ∧ crecimientoMensualScore prevM nd ≤ 10) ∧
    (0 ≤ eficienciaScore nd gc ∧ eficienciaScore nd gc ≤ 10) ∧
    (0 ≤ eficienciaMensualScore nd gc ∧ eficienciaMensualScore nd gc ≤ 10) ∧
    (0 ≤ conversionScore (gc + gd) deps ∧ conversionScore (gc + gd) deps ≤ 10) ∧
    (0 ≤ tendenciaScore coms ∧ tendenciaScore coms ≤ 10) ∧
    (0 ≤ diversificacionScore gc gd ∧ diversificacionScore gc gd ≤ 10) ∧
    (0 ≤ calidadScore apg players ∧ calidadScore apg players ≤ 10) := by
  obtain ⟨r0, r10, rb⟩ := rentabilidad_bounds ngr deps
  obtain ⟨t0, t7⟩ := rentTier_bounds (ngr / deps * 100)
  obtain ⟨b0, b3⟩ := rentBonus_bounds ngr
  exact ⟨⟨r0, r10⟩, ⟨t7, b0, b3⟩, rb, volumen_bounds txs, fidelidad_bounds j G hj,
    estabilidad_bounds coms, crecimiento_bounds depsL,
    crecimientoMensual_bounds prevM nd, eficiencia_bounds nd gc,
    eficienciaMensual_bounds nd gc hnd, conversion_bounds (gc + gd) deps,
    tendencia_bounds coms, diversificacion_bounds gc gd hgc hgd,
    calidad_bounds apg players⟩

/-- Claim C5, witness for the amended theorem at a concrete input with
nonnegative player count, deposit count and GGR aggregates. -/
theorem metricas_en_rango_testigo :
    0 ≤ diversificacionScore 100 50 ∧ diversificacionScore 100 50 ≤ 10 :=
  (metricas_en_rango 80 1000 10 5 100 8 100 50 3000 5 [] [] none
    (by norm_num) (by norm_num) (by norm_num)
    (by norm_num)).2.2.2.2.2.2.2.2.2.2.2.2.1

lemma round2_mono {x y : ℝ} (h : x ≤ y) : round2 x ≤ round2 y := by
  simp only [round2]
  have hr : round (x * 100) ≤ round (y * 100) := by
    rw [round_eq, round_eq]
    exact Int.floor_mono (by linarith)
  have hc : ((round (x * 100) : ℤ) : ℝ) ≤ ((round (y * 100) : ℤ) : ℝ) := by
    exact_mod_cast hr
  linarith

lemma round2_nonneg {x : ℝ} (h : 0 ≤ x) : 0 ≤ round2 x := by
  have h0 : round2 0 = 0 := by simp [round2]
  calc (0 : ℝ) = round2 0 := h0.symm
    _ ≤ round2 x := round2_mono h

lemma round2_le_add (x : ℝ) : round2 x ≤ x + 1 / 200 := by
  simp only [round2]
  have := round_le_add_half (x * 100)
  linarith

lemma getD_pos {l : List ℝ} (hp : ∀ x ∈ l, 0 < x) {i : ℕ} (h : i < l.length) :
    0 < l.getD i 0 := by
  rw [List.getD_eq_getElem?_getD, List.getElem?_eq_getElem h]
  exact hp _ (List.getElem_mem h)

lemma sortAsc_length (l : List ℝ) : (sortAsc l).length = l.length :=
  (List.perm_insertionSort _ l).length_eq

lemma sortAsc_pos {l : List ℝ} (hp : ∀ x ∈ l, 0 < x) :
    ∀ x ∈ sortAsc l, 0 < x :=
  fun x hx => hp x ((List.mem_insertionSort _).mp hx)

lemma percentil25_pos {l : List ℝ} (hne : l ≠ []) (hp : ∀ x ∈ l, 0 < x) :
    0 < calcular_percentil_25 l := by
  have hlen0 : l.length ≠ 0 := fun h => hne (List.length_eq_zero.mp h)
  have hslen : (sortAsc l).length = l.length := sortAsc_length l
  have hps := sortAsc_pos hp
  simp only [calcular_percentil_25, if_neg hlen0]
  have hn1 : 1 ≤ (sortAsc l).length := by omega
  have hi : ((sortAsc l).length - 1) / 4 < (sortAsc l).length := by omega
  have hvi := getD_pos hps hi
  by_cases hm : ((sortAsc l).length - 1) % 4 = 0
  · rw [hm]
    simpa using hvi
  · have hi1 : ((sortAsc l).length - 1) / 4 + 1 < (sortAsc l).length := by omega
    have hvi1 := getD_pos hps hi1
    have hf0 : (0 : ℝ) ≤ ((((sortAsc l).length - 1) % 4 : ℕ) : ℝ) / 4 := by positivity
    have hf1 : ((((sortAsc l).length - 1) % 4 : ℕ) : ℝ) / 4 < 1 := by
      have : ((sortAsc l).length - 1) % 4 < 4 := Nat.mod_lt _ (by norm_num)
      have hc : ((((sortAsc l).length - 1) % 4 : ℕ) : ℝ) < 4 := by exact_mod_cast this
      linarith
    nlinarith [mul_pos (show (0:ℝ) < 1 - ((((sortAsc l).length - 1) % 4 : ℕ) : ℝ) / 4
        by linarith) hvi, mul_nonneg hf0 hvi1.le]

lemma npMedian_pos {l : List ℝ} (hne : l ≠ []) (hp : ∀ x ∈ l, 0 < x) :
    0 < npMedian l := by
  have hlen0 : l.length ≠ 0 := fun h => hne (List.length_eq_zero.mp h)
  have hslen : (sortAsc l).length = l.length := sortAsc_length l
  have hps := sortAsc_pos hp
  simp only [npMedian, if_neg hlen0]
  split_ifs with hodd
  · exact getD_pos hps (by omega)
  · have h2 : 2 ≤ (sortAsc l).length := by omega
    have ha := getD_pos hps (show (sortAsc l).length / 2 - 1 < (sortAsc l).length by omega)
    have hb := getD_pos hps (show (sortAsc l).length / 2 < (sortAsc l).length by omega)
    linarith

lemma validos_pos (dfm : List FilaMensual) : ∀ x ∈ validosNGR dfm, 0 < x := by
  intro x hx
  simp only [validosNGR, List.mem_filter] at hx
  exact of_decide_eq_true hx.2

lemma factorVolatilidad_mem (cv : ℝ) :
    0.4 ≤ (calcular_factor_volatilidad cv).1 ∧
    (calcular_factor_volatilidad cv).1 ≤ 1 := by
  simp only [calcular_factor_volatilidad]
  split_ifs <;> norm_num

lemma factorTendencia_mem (t : ℝ) :
    0.8 ≤ (calcular_factor_tendencia t).1 ∧
    (calcular_factor_tendencia t).1 ≤ 1.15 := by
  simp only [calcular_factor_tendencia]
  split_ifs <;> norm_num

lemma factorVolumen_mem (l : List ℝ) :
    0.85 ≤ factorVolumen l ∧ factorVolumen l ≤ 1.5 := by
  simp only [factorVolumen]
  split_ifs <;> norm_num

/-- Claim C2: the credit recommendation is `0` whenever the 25th
percentile of the positive-NGR months is below `100`, regardless of all
other factors; and with `p25 ≥ 100` the returned credit is at most the
cap `3 × median × turnover factor` (two-decimal rounded), halved when
fewer than three qualifying months exist. -/
theorem credito_piso_y_tope (dfm : List FilaMensual) (score : ℝ) (m : Metricas) :
    (calcular_percentil_25 (validosNGR dfm) < 100 →
      calcular_credito_sugerido dfm score m = 0) ∧
    (100 ≤ calcular_percentil_25 (validosNGR dfm) →
      (3 ≤ (validosNGR dfm).length →
        calcular_credito_sugerido dfm score m ≤
          round2 (3 * npMedian (validosNGR dfm) * factorVolumen (validosNGR dfm))) ∧
      ((validosNGR dfm).length < 3 →
        calcular_credito_sugerido dfm score m ≤
          round2 (3 * npMedian (validosNGR dfm) * factorVolumen (validosNGR dfm) * 0.5))) := by
  by_cases h0 : dfm.length = 0
  · have hdf : dfm = [] := List.length_eq_zero.mp h0
    subst hdf
    constructor
    · intro _
      simp [calcular_credito_sugerido]
    · intro hge
      rw [show validosNGR ([] : List FilaMensual) = [] from rfl] at hge
      norm_num [calcular_percentil_25] at hge
  · by_cases hv : (validosNGR dfm).length = 0
    · constructor
      · intro _
        simp only [calcular_credito_sugerido, if_neg h0, if_pos hv]
      · intro hge
        rw [List.length_eq_zero.mp hv] at hge
        norm_num [calcular_percentil_25] at hge
    · simp only [calcular_credito_sugerido, if_neg h0, if_neg hv]
      constructor
      · intro hlt
        split_ifs <;> norm_num [round2]
      · intro hge
        constructor
        · intro h3
          rw [if_neg (not_lt.mpr h3), if_neg (not_lt.mpr hge)]
          exact round2_mono (min_le_right _ _)
        · intro h3
          rw [if_pos h3, if_neg (not_lt.mpr hge)]
          exact round2_mono
            (mul_le_mul_of_nonneg_right (min_le_right _ _) (by norm_num))

/-- Claim C2, witness: one month with positive NGR `50`, whose 25th
percentile `50` is below the trust floor `100`, so the credit is `0`. -/
theorem credito_piso_y_tope_testigo :
    calcular_credito_sugerido [⟨0, 50, 0, 0, 0, 0, 0, 0, 0, 0⟩] 5 Metricas.cero = 0 :=
  (credito_piso_y_tope [⟨0, 50, 0, 0, 0, 0, 0, 0, 0, 0⟩] 5 Metricas.cero).1
    (by norm_num [validosNGR, calcular_percentil_25, sortAsc,
      List.insertionSort, List.orderedInsert])

/-- Claim C10, counterexample: with a combined score of `-100` the score
factor `0.5 + 0.05 × ((score + estabilidad)/2)` is `-2`, and the
recommended credit on three months of NGR `200` is negative (about
`-323·f_volatilidad ≤ -129.2`), so the function can recommend a negative
credit line. -/
theorem credito_negativo_con_score_negativo :
    calcular_credito_sugerido
      [⟨0, 200, 0, 0, 0, 0, 0, 0, 0, 0⟩, ⟨1, 200, 0, 0, 0, 0, 0, 0, 0, 0⟩,
       ⟨2, 200, 0, 0, 0, 0, 0, 0, 0, 0⟩] (-100) Metricas.cero < 0 := by
  have hval : validosNGR
      [⟨0, 200, 0, 0, 0, 0, 0, 0, 0, 0⟩, ⟨1, 200, 0, 0, 0, 0, 0, 0, 0, 0⟩,
       ⟨2, 200, 0, 0, 0, 0, 0, 0, 0, 0⟩] = [200, 200, 200] := by
    norm_num [validosNGR]
  have hsort : sortAsc [(200 : ℝ), 200, 200] = [200, 200, 200] := by
    norm_num [sortAsc, List.insertionSort, List.orderedInsert]
  have hp25 : calcular_percentil_25 [(200 : ℝ), 200, 200] = 200 := by
    norm_num [calcular_percentil_25, hsort, List.getD]
  have htend : calcular_tendencia_lineal [(200 : ℝ), 200, 200] = 0 := by
    norm_num [calcular_tendencia_lineal, List.enum, List.enumFrom, List.range_succ]
  have hft : (calcular_factor_tendencia 0).1 = 0.95 := by
    norm_num [calcular_factor_tendencia]
  have hfvol : factorVolumen [(200 : ℝ), 200, 200] = 0.85 := by
    norm_num [factorVolumen]
  have key : ∀ fs fv K : ℝ, fs ≤ -2 → 0.4 ≤ fv →
      round2 (min (200 * fs * fv * 0.95 * 0.85) K) < 0 := by
    intro fs fv K hfs hfv
    have hc : 200 * fs * fv * 0.95 * 0.85 ≤ -129.2 := by
      nlinarith [mul_nonneg (show (0:ℝ) ≤ -fs - 2 by linarith)
        (show (0:ℝ) ≤ fv - 0.4 by linarith)]
    have h1 : min (200 * fs * fv * 0.95 * 0.85) K ≤ -129.2 :=
      le_trans (min_le_left _ _) hc
    have h2 := round2_le_add (min (200 * fs * fv * 0.95 * 0.85) K)
    linarith
  simp only [calcular_credito_sugerido, hval]
  rw [if_neg (show ¬(([⟨0, 200, 0, 0, 0, 0, 0, 0, 0, 0⟩,
      ⟨1, 200, 0, 0, 0, 0, 0, 0, 0, 0⟩, ⟨2, 200, 0, 0, 0, 0, 0, 0, 0, 0⟩] :
      List FilaMensual).length = 0) by norm_num)]
  rw [if_neg (show ¬(([(200 : ℝ), 200, 200]).length = 0) by norm_num)]
  simp only [hp25, htend, hfvol, hft]
  rw [if_neg (show ¬(([(200 : ℝ), 200, 200]).length < 3) by norm_num)]
  rw [if_neg (show ¬((200 : ℝ) < 100) by norm_num)]
  exact key _ _ _ (by norm_num [Metricas.cero]) (factorVolatilidad_mem _).1

/-- Claim C10 (amended): the recommended credit is non-negative provided
the score factor is non-negative, i.e. whenever
`score + estabilidad ≥ -20`; every other factor (volatility, trend,
turnover) is positive by construction, the percentile and the median of
the filtered positive months are positive, and the rounding preserves the
sign.  (The counterexample shows the unrestricted claim fails for very
negative combined scores.) -/
theorem credito_no_negativo (dfm : List FilaMensual) (score : ℝ) (m : Metricas)
    (h : -20 ≤ score + m.estabilidad) :
    0 ≤ calcular_credito_sugerido dfm score m := by
  by_cases h0 : dfm.length = 0
  · simp [calcular_credito_sugerido, h0]
  · by_cases hv : (validosNGR dfm).length = 0
    · simp [calcular_credito_sugerido, h0, hv]
    · have hvne : validosNGR dfm ≠ [] := fun he => hv (by simp [he])
      have hpos := validos_pos dfm
      have hmed : 0 < npMedian (validosNGR dfm) := npMedian_pos hvne hpos
      have hfs : (0 : ℝ) ≤ 0.5 + 0.05 * ((score + m.estabilidad) / 2) := by
        nlinarith
      simp only [calcular_credito_sugerido, if_neg h0, if_neg hv]
      have hcap : (0 : ℝ) ≤ 3 * npMedian (validosNGR dfm) * factorVolumen (validosNGR dfm) :=
        mul_nonneg (mul_nonneg (by norm_num) hmed.le)
          (le_trans (by norm_num) (factorVolumen_mem (validosNGR dfm)).1)
      split_ifs with h1 h2 h3
      · norm_num [round2]
      · apply round2_nonneg
        refine mul_nonneg (le_min ?_ hcap) (by norm_num)
        exact mul_nonneg (mul_nonneg (mul_nonneg (mul_nonneg
          (le_trans (by norm_num) (not_lt.mp h2)) hfs)
          (le_trans (by norm_num) (factorVolatilidad_mem _).1))
          (le_trans (by norm_num) (factorTendencia_mem _).1))
          (le_trans (by norm_num) (factorVolumen_mem _).1)
      · norm_num [round2]
      · apply round2_nonneg
        refine le_min ?_ hcap
        exact mul_nonneg (mul_nonneg (mul_nonneg (mul_nonneg
          (le_trans (by norm_num) (not_lt.mp h3)) hfs)
          (le_trans (by norm_num) (factorVolatilidad_mem _).1))
          (le_trans (by norm_num) (factorTendencia_mem _).1))
          (le_trans (by norm_num) (factorVolumen_mem _).1)

/-- Claim C10, witness for the amended theorem: empty series, score `5`,
zero metric set — the credit is `0`, hence non-negative. -/
theorem credito_no_negativo_testigo :
    0 ≤ calcular_credito_sugerido [] 5 Metricas.cero :=
  credito_no_negativo [] 5 Metricas.cero (by norm_num [Metricas.cero])

end Grafico
